import Mathlib

/-!
Shallow embedding of `src/single-linked-list/single-linked-list.h`.

The C++ class `SingleLinkedList<Type>` owns a sentinel node `head_` whose
`next_node` pointer starts the chain of real nodes, plus a `size_` counter.
A well-formed chain is acyclic and null-terminated, so the observable state
of a list object is exactly: the sequence of values stored in the chain
hanging off the sentinel (front to back), together with the stored counter.
We embed that state as a `List` plus a `Nat`.  Note that the counter is a
separate field, exactly as in the source: nothing here forces it to agree
with the chain length, because nothing in the source does either.

`size_` is a C++ `size_t`; we model it as `Nat` with truncated subtraction.
Every decrement in the source (`EraseAfter`, `PopFront`, `Clear`) happens
while the chain is nonempty on the paths analysed below, so wraparound at 0
is never exercised by any theorem in this file.

Iterators (`BasicIterator`) hold a raw `Node*`.  The pointer values that
arise for a given list are: `nullptr` (the `end()` iterator), `&head_`
(the sentinel, i.e. `before_begin()`), or the address of the i-th real
node.  We embed these three shapes as `IterPos`.

The header is compiled with `assert` active (a checked build).  Operations
whose source contains an `assert` or an unchecked pointer dereference are
embedded with result type `CRes`: `ok` for a normal return, `assertTrap`
when an `assert` in the source fires, and `ub` when the source dereferences
an invalid pointer that no assert guarded (undefined behavior).
-/

/-- Observable state of a `SingleLinkedList<Type>`: the chain of real node
values reachable from the sentinel via `next_node` links (front to back),
and the stored `size_` counter. -/
structure SingleLinkedList (α : Type) where
  elems : List α
  size_ : Nat
  deriving DecidableEq

/-- Iterator positions over a given list: the null pointer (`end()`),
the sentinel `&head_` (`before_begin()`), or the i-th real node. -/
inductive IterPos where
  | nullIt
  | sentinel
  | node (i : Nat)
  deriving DecidableEq

/-- Outcome of an operation in a checked (assert-enabled) build:
a normal result, an assertion failure (trap), or an unchecked dereference
of an invalid pointer (undefined behavior, no trap). -/
inductive CRes (β : Type) where
  | ok (val : β)
  | assertTrap
  | ub
  deriving DecidableEq

/-- Default constructor `SingleLinkedList() : size_(0)`: empty chain
(`head_.next_node` is the default `nullptr`), counter 0. -/
def SingleLinkedList.defaultNew (α : Type) : SingleLinkedList α := ⟨[], 0⟩

/-- Member `GetSize`: returns the stored counter. -/
def SingleLinkedList.GetSize (s : SingleLinkedList α) : Nat := s.size_

/-- Member `IsEmpty`: `return size_ == 0 ? true : false;`. -/
def SingleLinkedList.IsEmpty (s : SingleLinkedList α) : Bool :=
  if s.size_ == 0 then true else false

/-- Member `PushFront`: a new node holding `value` becomes `head_.next_node`,
its own `next_node` being the old head of the chain; `++size_`. -/
def SingleLinkedList.PushFront (s : SingleLinkedList α) (value : α) : SingleLinkedList α :=
  ⟨value :: s.elems, s.size_ + 1⟩

/-- Member `PopFront`: guarded by `size_ != 0`.  Inside the guard the source
dereferences `head_.next_node`; if the counter is nonzero while the chain is
empty that dereference is of a null pointer (`none` = undefined behavior).
Otherwise the first node is unlinked and deleted and `--size_`. -/
def SingleLinkedList.PopFront (s : SingleLinkedList α) : Option (SingleLinkedList α) :=
  if s.size_ != 0 then
    match s.elems with
    | [] => none
    | _ :: t => some ⟨t, s.size_ - 1⟩
  else some s

/-- The `while (head_.next_node)` loop of member `Clear`: each iteration
deletes the first remaining node and does `--size_`.  The loop is bounded by
the chain, not by the counter. -/
def clearLoop (chain : List α) (sz : Nat) : SingleLinkedList α :=
  match chain with
  | [] => ⟨[], sz⟩
  | _ :: t => clearLoop t (sz - 1)

/-- Member `Clear`: runs the deletion loop over the current chain. -/
def SingleLinkedList.Clear (s : SingleLinkedList α) : SingleLinkedList α :=
  clearLoop s.elems s.size_

/-- Member `swap`: `std::swap` of the two `head_.next_node` pointers and of
the two `size_` counters, i.e. a full exchange of observable state.  Returns
the pair (new this, new other). -/
def SingleLinkedList.swap (s other : SingleLinkedList α) :
    SingleLinkedList α × SingleLinkedList α :=
  (⟨other.elems, other.size_⟩, ⟨s.elems, s.size_⟩)

/-- Free function `swap(lhs, rhs)`: calls `lhs.swap(rhs)`. -/
def swapFree (lhs rhs : SingleLinkedList α) :
    SingleLinkedList α × SingleLinkedList α :=
  lhs.swap rhs

/-- Iterator `operator*` on a list: `assert(node_ != nullptr)` then
`return node_->value`.  The null iterator trips the assert.  The sentinel
pointer `&head_` is not null, so the assert passes and the source returns
`head_.value` — the sentinel's default-constructed value, which is no
element of the list; we render it `ok none`.  A node index past the chain
is a dangling pointer (undefined behavior). -/
def SingleLinkedList.derefIt (s : SingleLinkedList α) (it : IterPos) : CRes (Option α) :=
  match it with
  | IterPos.nullIt => CRes.assertTrap
  | IterPos.sentinel => CRes.ok none
  | IterPos.node i =>
    match s.elems.get? i with
    | some v => CRes.ok (some v)
    | none => CRes.ub

/-- Iterator `operator++` on a list: `assert(node_ != nullptr)` then
`node_ = node_->next_node`.  Advancing the null (`end()`) iterator trips the
assert; advancing the sentinel lands on the first real node (or null when
the chain is empty); advancing the last real node lands on null; advancing
a dangling index is undefined behavior. -/
def SingleLinkedList.advanceIt (s : SingleLinkedList α) (it : IterPos) : CRes IterPos :=
  match it with
  | IterPos.nullIt => CRes.assertTrap
  | IterPos.sentinel =>
    CRes.ok (if s.elems.isEmpty then IterPos.nullIt else IterPos.node 0)
  | IterPos.node i =>
    if i < s.elems.length then
      CRes.ok (if i + 1 < s.elems.length then IterPos.node (i + 1) else IterPos.nullIt)
    else CRes.ub

/-- Member `InsertAfter(pos, value)`: `assert(pos.node_ != nullptr)` (the
`end()` position trips it), then a new node holding `value` is spliced in
right after `pos.node_` and `++size_`; returns an iterator at the new node.
A dangling node index is undefined behavior. -/
def SingleLinkedList.InsertAfter (s : SingleLinkedList α) (pos : IterPos) (value : α) :
    CRes (SingleLinkedList α × IterPos) :=
  match pos with
  | IterPos.nullIt => CRes.assertTrap
  | IterPos.sentinel =>
    CRes.ok (⟨value :: s.elems, s.size_ + 1⟩, IterPos.node 0)
  | IterPos.node i =>
    if i < s.elems.length then
      CRes.ok (⟨s.elems.insertIdx (i + 1) value, s.size_ + 1⟩, IterPos.node (i + 1))
    else CRes.ub

/-- Member `EraseAfter(pos)`: `assert(pos.node_ != nullptr)` (the `end()`
position trips it); that is the only assert.  The source then evaluates
`current->next_node->next_node`: when no node follows `pos` —
`EraseAfter(before_begin())` on an empty chain, or `pos` at the last node —
`current->next_node` is null and this dereference is unchecked undefined
behavior (`ub`), not a trap.  Otherwise the node after `pos` is unlinked and
deleted, `--size_`, and an iterator at the node now following `pos` (or the
null iterator) is returned. -/
def SingleLinkedList.EraseAfter (s : SingleLinkedList α) (pos : IterPos) :
    CRes (SingleLinkedList α × IterPos) :=
  match pos with
  | IterPos.nullIt => CRes.assertTrap
  | IterPos.sentinel =>
    match s.elems with
    | [] => CRes.ub
    | _ :: t =>
      CRes.ok (⟨t, s.size_ - 1⟩, if t.isEmpty then IterPos.nullIt else IterPos.node 0)
  | IterPos.node i =>
    if i < s.elems.length then
      match s.elems.get? (i + 1) with
      | none => CRes.ub
      | some _ =>
        CRes.ok (⟨s.elems.eraseIdx (i + 1), s.size_ - 1⟩,
          if i + 1 < s.elems.length - 1 then IterPos.node (i + 1) else IterPos.nullIt)
    else CRes.ub

/-- The loop of private member `CopyAndSwap(elements)`, called from the
initializer-list and copy constructors on a default-initialized `this`.

The source initializes `insert_after_it = before_begin()`, an iterator into
THIS list (it holds `&this->head_`), and then calls
`result.InsertAfter(insert_after_it, *it)` for each input value.
`InsertAfter` splices the new node after `pos.node_` — a node of `this` —
so every new node is linked into this list's chain, while the `++size_`
inside `InsertAfter` increments `result`'s counter.  `result`'s own chain
is never touched.  The loop therefore carries: this list's chain, the
running iterator into it, and `result`'s counter.  `++insert_after_it`
follows the chain just spliced (the iterator is never null inside the
loop, so its assert never fires: it starts at the sentinel and each step
lands on the node just inserted). -/
def copyLoop (vals : List α) (thisElems : List α) (it : IterPos) (resultSize : Nat) :
    List α × Nat :=
  match vals with
  | [] => (thisElems, resultSize)
  | v :: rest =>
    let spliced : List α :=
      match it with
      | IterPos.sentinel => v :: thisElems
      | IterPos.node i => thisElems.insertIdx (i + 1) v
      | IterPos.nullIt => thisElems
    let it2 : IterPos :=
      match it with
      | IterPos.sentinel => if spliced.isEmpty then IterPos.nullIt else IterPos.node 0
      | IterPos.node i => if i + 1 < spliced.length then IterPos.node (i + 1) else IterPos.nullIt
      | IterPos.nullIt => IterPos.nullIt
    copyLoop rest spliced it2 (resultSize + 1)

/-- Private member `CopyAndSwap` as invoked by the constructors: `this` is
default-initialized (empty chain, `size_ = 0`), `result` starts empty, the
loop runs, then `swap(result)` exchanges the two states, so `this` ends
with `result`'s state.  (`result` then goes out of scope and its destructor
deletes the chain it received from `this`.) -/
def SingleLinkedList.CopyAndSwap (vals : List α) : SingleLinkedList α :=
  let p := copyLoop vals [] IterPos.sentinel 0
  let thisAfterLoop : SingleLinkedList α := ⟨p.1, 0⟩
  let resultAfterLoop : SingleLinkedList α := ⟨[], p.2⟩
  (thisAfterLoop.swap resultAfterLoop).1

/-- Constructor `SingleLinkedList(std::initializer_list<Type> values)`:
`CopyAndSwap(values)`. -/
def SingleLinkedList.fromInitList (vals : List α) : SingleLinkedList α :=
  SingleLinkedList.CopyAndSwap vals

/-- Copy constructor `SingleLinkedList(const SingleLinkedList& other)`:
`CopyAndSwap(other)`, which iterates `other` from `begin()` to `end()`,
i.e. over its chain. -/
def SingleLinkedList.copyCtor (other : SingleLinkedList α) : SingleLinkedList α :=
  SingleLinkedList.CopyAndSwap other.elems

/-- Three-iterator `std::equal(first1, last1, first2)` on value chains, as
used by `operator==`: the walk is bounded by the FIRST range only.  When the
first range is exhausted it returns true; when the second chain runs out
first, `*first2` dereferences the null iterator (undefined behavior,
`none`); otherwise elements are compared pairwise with early exit on a
mismatch. -/
def stdEqual [BEq α] (xs ys : List α) : Option Bool :=
  match xs, ys with
  | [], _ => some true
  | _ :: _, [] => none
  | a :: as, b :: bs => if a == b then stdEqual as bs else some false

/-- Free `operator==`: `std::equal(lhs.begin(), lhs.end(), rhs.begin())`. -/
def opEq [BEq α] (lhs rhs : SingleLinkedList α) : Option Bool :=
  stdEqual lhs.elems rhs.elems

/-- Free `operator!=`: `!(lhs == rhs)`; undefined behavior inside
`operator==` propagates. -/
def opNe [BEq α] (lhs rhs : SingleLinkedList α) : Option Bool :=
  match opEq lhs rhs with
  | some b => some (!b)
  | none => none

/-- Four-iterator `std::lexicographical_compare` on value chains: bounded by
both ranges, element-wise `<` with standard tie-break (the shorter
prefix-equal range sorts first). -/
def lexCompare [LT α] [∀ a b : α, Decidable (a < b)] (xs ys : List α) : Bool :=
  match xs, ys with
  | _, [] => false
  | [], _ :: _ => true
  | a :: as, b :: bs => if a < b then true else if b < a then false else lexCompare as bs

/-- Free `operator<`: lexicographic comparison of the two chains. -/
def opLt [LT α] [∀ a b : α, Decidable (a < b)] (lhs rhs : SingleLinkedList α) : Bool :=
  lexCompare lhs.elems rhs.elems

/-- Free `operator>`: lexicographic comparison with the arguments swapped. -/
def opGt [LT α] [∀ a b : α, Decidable (a < b)] (lhs rhs : SingleLinkedList α) : Bool :=
  lexCompare rhs.elems lhs.elems

/-- Free `operator<=`: `!(lhs > rhs)`. -/
def opLe [LT α] [∀ a b : α, Decidable (a < b)] (lhs rhs : SingleLinkedList α) : Bool :=
  !(opGt lhs rhs)

/-- Free `operator>=`: `!(lhs < rhs)`. -/
def opGe [LT α] [∀ a b : α, Decidable (a < b)] (lhs rhs : SingleLinkedList α) : Bool :=
  !(opLt lhs rhs)

/-- A well-formed list built by the code itself: `n` calls to `PushFront`,
pushing the values in back-to-front order, so the chain holds `vals` front
to back and the counter equals the chain length. -/
def listOf (vals : List α) : SingleLinkedList α :=
  vals.foldr (fun v s => s.PushFront v) (SingleLinkedList.defaultNew α)

/-- The size invariant of the spec: the stored counter equals the number of
real nodes reachable from the sentinel. -/
def WellFormed (s : SingleLinkedList α) : Prop :=
  s.size_ = s.elems.length

instance (s : SingleLinkedList α) : Decidable (WellFormed s) :=
  inferInstanceAs (Decidable (s.size_ = s.elems.length))

/-- C1: the claim says `operator==` returns true iff the lists have the same
length and pairwise-equal elements, that `{1,2} == {1,2,3}` is false, and
that the comparison never reads past the shorter list's end.  The code uses
the three-iterator `std::equal`, bounded only by the left list: for the
well-formed lists holding `[1,2]` and `[1,2,3]` it returns true although
the chains differ, and with the arguments swapped it dereferences past the
shorter (right) list's end — undefined behavior. -/
theorem opEq_ignores_rhs_length :
    opEq (listOf ([1, 2] : List Nat)) (listOf [1, 2, 3]) = some true ∧
    (listOf ([1, 2] : List Nat)).elems ≠ (listOf [1, 2, 3]).elems ∧
    opEq (listOf ([1, 2, 3] : List Nat)) (listOf [1, 2]) = none := by
  decide

/-- C2: the claim says a list constructed from the sequence `[1,2,3]` (by
initializer list, or by copying a list that holds `[1,2,3]`) iterates as
`1, 2, 3`.  In the code, `CopyAndSwap` splices every new node into `this`
while the size increments land in `result`, and the final swap hands `this`
the temporary's untouched empty chain together with the counter: both
constructors yield a list whose chain is empty (iteration from `begin()` to
`end()` visits nothing) while `GetSize()` is 3. -/
theorem fromInitList_loses_elements :
    (SingleLinkedList.fromInitList ([1, 2, 3] : List Nat)).elems = [] ∧
    (SingleLinkedList.fromInitList ([1, 2, 3] : List Nat)).GetSize = 3 ∧
    (SingleLinkedList.copyCtor (listOf ([1, 2, 3] : List Nat))).elems = [] ∧
    (SingleLinkedList.copyCtor (listOf ([1, 2, 3] : List Nat))).GetSize = 3 := by
  decide

/-- C3: the claim says every public operation preserves the invariant that
`GetSize()` equals the number of real nodes reachable from the sentinel,
with size 0 exactly when the sentinel's next link is absent.  Initializer-
list construction violates it: `SingleLinkedList{1,2,3}` has `GetSize() = 3`
while zero nodes are reachable (the sentinel's next link is absent). -/
theorem fromInitList_breaks_size_invariant :
    ¬ WellFormed (SingleLinkedList.fromInitList ([1, 2, 3] : List Nat)) ∧
    (SingleLinkedList.fromInitList ([1, 2, 3] : List Nat)).elems = [] ∧
    (SingleLinkedList.fromInitList ([1, 2, 3] : List Nat)).GetSize ≠ 0 := by
  decide

/-- C4: the claim says exactly one of `<`, `==`, `>` holds for every
comparable pair, and that for a proper prefix pair `<` holds and `==` does
not.  For the well-formed lists holding `[1,2]` and `[1,2,3]` the code
reports BOTH `lhs < rhs` and `lhs == rhs` (the equality bug of C1), so the
trichotomy fails. -/
theorem trichotomy_fails_on_prefix_pair :
    opLt (listOf ([1, 2] : List Nat)) (listOf [1, 2, 3]) = true ∧
    opEq (listOf ([1, 2] : List Nat)) (listOf [1, 2, 3]) = some true ∧
    opGt (listOf ([1, 2] : List Nat)) (listOf [1, 2, 3]) = false := by
  decide

/-- C5: the claim says every listed contract violation asserts and traps
before any unchecked memory access.  Two of the listed cases do not:
`EraseAfter` on a position with no following node passes its only assert
(`pos.node_ != nullptr`) and then dereferences the null `next_node`
unchecked — shown here for erasing after the last (only) node of `{5}` and
for `EraseAfter(before_begin())` on an empty list — and dereferencing
`before_begin()` passes the assert (the sentinel address is not null) and
returns the sentinel's default value instead of trapping. -/
theorem eraseAfter_and_deref_miss_checks :
    (listOf ([5] : List Nat)).EraseAfter (IterPos.node 0) = CRes.ub ∧
    (listOf ([] : List Nat)).EraseAfter IterPos.sentinel = CRes.ub ∧
    (listOf ([5] : List Nat)).derefIt IterPos.sentinel = CRes.ok none := by
  decide

/-- C6: the claim says that after `Clear()` the size is 0 and `IsEmpty()` is
true for every list regardless of how it was produced.  The list produced by
`SingleLinkedList{1,2,3}` has counter 3 and an empty chain (the C2/C3 bug);
`Clear()` loops over the chain, so it terminates immediately and leaves
`GetSize() = 3` and `IsEmpty() = false`. -/
theorem clear_leaves_nonzero_size :
    (SingleLinkedList.fromInitList ([1, 2, 3] : List Nat)).Clear.GetSize = 3 ∧
    (SingleLinkedList.fromInitList ([1, 2, 3] : List Nat)).Clear.IsEmpty = false := by
  decide

/-- C7: `InsertAfter(before_begin(), v)` is equivalent to `PushFront(v)`:
on every list state it succeeds, produces exactly the state `PushFront`
produces (`v` prepended to the chain, counter incremented), and returns an
iterator at the new first node. -/
theorem insertAfter_beforeBegin_is_pushFront (α : Type) (s : SingleLinkedList α) (v : α) :
    s.InsertAfter IterPos.sentinel v = CRes.ok (s.PushFront v, IterPos.node 0) := rfl

/-- C8: on every list satisfying the size invariant, `PopFront()` on a
nonempty list removes exactly the first element and decrements the counter,
agreeing with the state produced by `EraseAfter(before_begin())`; on the
empty list `PopFront()` returns the state unchanged without dereferencing
any absent node (`some`, never `none`). -/
theorem popFront_is_eraseAfter_beforeBegin (α : Type) (s : SingleLinkedList α)
    (h : WellFormed s) :
    (s.elems = [] → s.PopFront = some s) ∧
    (∀ a t, s.elems = a :: t →
      s.PopFront = some ⟨t, s.size_ - 1⟩ ∧
      s.EraseAfter IterPos.sentinel =
        CRes.ok (⟨t, s.size_ - 1⟩, if t.isEmpty then IterPos.nullIt else IterPos.node 0)) := by
  obtain ⟨es, n⟩ := s
  have hn : n = es.length := h
  subst hn
  constructor
  · intro he
    subst he
    rfl
  · intro a t ht
    subst ht
    constructor
    · simp [SingleLinkedList.PopFront]
    · rfl

/-- Witness for C8: the theorem applied to the concrete well-formed list
holding `[7, 8]`. -/
theorem popFront_is_eraseAfter_beforeBegin_witness :
    WellFormed (listOf ([7, 8] : List Nat)) ∧
    (listOf ([7, 8] : List Nat)).PopFront = some ⟨[8], 1⟩ := by
  refine ⟨by decide, ?_⟩
  exact ((popFront_is_eraseAfter_beforeBegin Nat (listOf [7, 8]) (by decide)).2 7 [8] rfl).1

/-- C9: `swap(a, b)` exchanges the two lists' entire observable state: the
first component of the result holds exactly the chain and counter `b` held,
the second holds exactly what `a` held; the operation is total (never
fails) and moves the chains by pointer exchange, copying no element. -/
theorem swap_exchanges_states (α : Type) (a b : SingleLinkedList α) :
    swapFree a b = (b, a) := rfl

/-- C10: `operator!=` is exactly the boolean negation of `operator==` on the
same pair, inheriting whatever `operator==` computes (including its
undefined-behavior cases). -/
theorem opNe_negates_opEq (α : Type) [BEq α] (a b : SingleLinkedList α) :
    opNe a b = Option.map (fun x => !x) (opEq a b) := by
  cases hq : opEq a b <;> simp [opNe, hq]
